import Mathlib

/-!
# Verification of the arr-missing-content cycle engine

Shallow embedding of `src/main.py` (the `arr-missing-content` service).

The program periodically polls two media managers ("sonarr" for episodes,
"radarr" for movies) for missing or quality-cutoff-unmet content, filters the
fetched candidate IDs against a per-category SQLite ledger of already-searched
IDs, dispatches a bounded batch of search commands, and resets the ledger on
cycle completion or when the oldest ledger entry exceeds a maximum age.

Modelling conventions:
* A ledger table (`sonarr_searches` / `radarr_searches`) is a `List (Int × Int)`
  of `(id, timestamp)` rows in insertion order; the `id` column is the SQLite
  primary key, so `INSERT OR IGNORE` inserts only when the id is absent.
* Timestamps and the current time are integers in days, so that the Python
  comparison `datetime.now() - oldest_date > timedelta(days=MAX_CYCLE_DAYS)`
  becomes `maxAge < now - t` with `maxAge = MAX_CYCLE_DAYS`.
* HTTP responses are inductive values: a transport error, a non-2xx status and
  a JSON decoding error are all `failure` (the Python code catches them all in
  one `except`); a decoded body is either a `records`-wrapped list, a bare
  list, or some other shape.  A list item either has an `id` key (`some n`) or
  not (`none`, a Python `KeyError`).
* Python's `list(set(final_ids))` iterates a hash set in an order the language
  does not specify; it is modelled by a parameter `setOrder` constrained (in
  theorems) by `valid_set_order`: the output is duplicate-free and has exactly
  the elements of the input.
* The `requests.post` outcome for a search command is a predicate
  `post : Int → Bool` (true = 2xx); the observable actions of a cycle are
  collected in a trace of `TraceEvent`s.
* `get_searched_ids` is fail-soft: on a storage error it returns the empty
  set.  The read outcome is the `readOk : Bool` parameter of `run_cycle`.
-/

/-- The two categories (`app_name` strings "sonarr" / "radarr" in the code). -/
inductive AppName
  | sonarr
  | radarr
deriving DecidableEq, Repr

/-- A decoded HTTP response for a `wanted/missing` or `wanted/cutoff`
endpoint, as consumed by `fetch_ids_from_endpoint`.  `failure` covers
transport errors, timeouts, non-2xx statuses and JSON decode errors (all
caught by the same `except` clause).  Each item is `some id` when it has an
`id` key and `none` when subscripting `item['id']` would raise `KeyError`. -/
inductive ApiResponse
  | failure
  | recordsDict (items : List (Option Int))
  | bareList (items : List (Option Int))
  | otherShape
deriving DecidableEq, Repr

/-- A movie object from radarr's `/api/v3/movie` endpoint.  `id` is `none`
when the `id` key is absent (`m['id']` raises); `hasFile` / `monitored` are
`none` when `m.get(...)` returns Python `None`, which is falsy. -/
structure Movie where
  id : Option Int
  hasFile : Option Bool
  monitored : Option Bool
deriving DecidableEq, Repr

/-- A decoded response of radarr's `/api/v3/movie` endpoint; `failure` covers
transport errors, non-2xx statuses and JSON decode errors. -/
inductive MoviesResponse
  | failure
  | success (movies : List Movie)
deriving DecidableEq, Repr

/-- The remote service's responses for the one cycle under consideration:
the missing/wanted listing, the cutoff-unmet listing, and (radarr only) the
full movie catalog. -/
structure Network where
  missing : ApiResponse
  cutoff : ApiResponse
  movies : MoviesResponse
deriving DecidableEq, Repr

/-- Observable actions of the search trigger: a command submission
(`requests.post` on `/api/v3/command`), a successful ledger insert
(`add_searched_id`), and a pacing pause (`time.sleep`). -/
inductive TraceEvent
  | post (item_id : Int)
  | record (item_id : Int)
  | sleep (seconds : Int)
deriving DecidableEq, Repr

/-- `true` exactly on `TraceEvent.sleep` events. -/
def isSleepEvent : TraceEvent → Bool
  | .sleep _ => true
  | _ => false

/-- `true` exactly on `TraceEvent.post` (submission) events. -/
def isPostEvent : TraceEvent → Bool
  | .post _ => true
  | _ => false

/-- The result of one `run_cycle` invocation: the final ledger table, the
batch of IDs handed to `trigger_search`, and the trace of the dispatch. -/
structure CycleResult where
  ledger : List (Int × Int)
  dispatched : List Int
  trace : List TraceEvent
deriving DecidableEq, Repr

-- --- Database management (src/main.py lines 60-116) ---

/-- `get_searched_ids` (main.py:60-71) on a successful read: `SELECT id FROM
table` yields the set of ids of the ledger rows.  (On a storage error the
function returns the empty set; `run_cycle` below takes that outcome as the
`readOk` flag.) -/
def get_searched_ids (ledger : List (Int × Int)) : List Int :=
  ledger.map Prod.fst

/-- `add_searched_id` (main.py:73-83): `INSERT OR IGNORE` with `id` as the
primary key appends a `(id, timestamp)` row only when the id is not already
present. -/
def add_searched_id (ledger : List (Int × Int)) (item_id ts : Int) :
    List (Int × Int) :=
  if item_id ∈ ledger.map Prod.fst then ledger else ledger ++ [(item_id, ts)]

/-- `wipe_table` (main.py:85-95): `DELETE FROM table`. -/
def wipe_table (_ledger : List (Int × Int)) : List (Int × Int) :=
  []

/-- The `SELECT timestamp FROM table ORDER BY timestamp ASC LIMIT 1` query of
`check_safety_net` (main.py:106-107): the least timestamp of any row, or
`none` when the table is empty. -/
def oldest_timestamp (ledger : List (Int × Int)) : Option Int :=
  (ledger.map Prod.snd).min?

/-- `check_safety_net` (main.py:97-116): if the oldest row is older than
`MAX_CYCLE_DAYS` (strictly), wipe the table; otherwise (or when the table is
empty) leave it unchanged. -/
def check_safety_net (now maxAge : Int) (ledger : List (Int × Int)) :
    List (Int × Int) :=
  match oldest_timestamp ledger with
  | none => ledger
  | some t => if maxAge < now - t then wipe_table ledger else ledger

-- --- API interaction (src/main.py lines 120-214) ---

/-- The list comprehension `[item['id'] for item in data]`: if every item has
an `id` key it yields the ids, otherwise the comprehension raises `KeyError`
(modelled by the `mapM` returning `none`), which the caller's `except` turns
into the untouched default `ids = []`. -/
def extract_item_ids (items : List (Option Int)) : Option (List Int) :=
  items.mapM (fun x => x)

/-- `fetch_ids_from_endpoint` (main.py:120-144): a transport/parse failure or
a shape without `records` yields `[]`; otherwise the item ids, degraded to
`[]` if any item lacks an `id` key (the `KeyError` is caught and the default
empty `ids` is returned). -/
def fetch_ids_from_endpoint : ApiResponse → List Int
  | .failure => []
  | .otherShape => []
  | .recordsDict items => (extract_item_ids items).getD []
  | .bareList items => (extract_item_ids items).getD []

/-- The filter of the radarr missing comprehension (main.py:173):
`not m.get('hasFile') and m.get('monitored')`, with Python truthiness of an
absent key (`None`) being false. -/
def movie_is_wanted (m : Movie) : Bool :=
  !(m.hasFile.getD false) && (m.monitored.getD false)

/-- The radarr missing-content computation (main.py:166-173): on a transport
or parse failure of `/api/v3/movie`, or a `KeyError` on `m['id']` for a
passing movie, the surrounding `try` aborts (yielding `none`); otherwise the
ids of monitored movies without a file. -/
def radarr_missing_ids : MoviesResponse → Option (List Int)
  | .failure => none
  | .success movies => extract_item_ids ((movies.filter movie_is_wanted).map Movie.id)

/-- The raw `final_ids` list built by `get_combined_content` (main.py:146-188)
before duplicate removal: the missing sub-query's ids followed by, when the
category's cutoff limit is positive, the cutoff sub-query's ids.  For radarr,
both sub-queries sit in one `try` block, so a failure of the missing part
also skips the cutoff fetch and leaves `final_ids` empty. -/
def raw_candidate_ids (app : AppName) (net : Network) (cutoff_limit : Int) :
    List Int :=
  match app with
  | .sonarr =>
      fetch_ids_from_endpoint net.missing
        ++ (if 0 < cutoff_limit then fetch_ids_from_endpoint net.cutoff else [])
  | .radarr =>
      match radarr_missing_ids net.movies with
      | none => []
      | some missing_ids =>
          missing_ids
            ++ (if 0 < cutoff_limit then fetch_ids_from_endpoint net.cutoff else [])

/-- A function standing for Python's `list(set(l))` must return a
duplicate-free list with exactly the elements of its input; the iteration
order is whatever the hash set produces. -/
def valid_set_order (f : List Int → List Int) : Prop :=
  ∀ l : List Int, (f l).Nodup ∧ ∀ x : Int, x ∈ f l ↔ x ∈ l

/-- `get_combined_content` (main.py:146-190): build `final_ids` from the two
sub-queries and return `list(set(final_ids))`.  The `limit` parameter is
received but never used, exactly as in the source.  `setOrder` stands for the
unspecified hash-set iteration order of `list(set(...))`. -/
def get_combined_content (app : AppName) (net : Network)
    (setOrder : List Int → List Int) (_limit cutoff_limit : Int) : List Int :=
  setOrder (raw_candidate_ids app net cutoff_limit)

/-- The per-item events of `trigger_search`'s loop body (main.py:196-214): a
submission; then, only on success, the ledger insert followed by the pacing
sleep when the configured delay is positive.  On failure the `except` clause
skips both the insert and the sleep. -/
def search_events (delay : Int) (post : Int → Bool) (item_id : Int) :
    List TraceEvent :=
  if post item_id then
    [.post item_id, .record item_id]
      ++ (if 0 < delay then [.sleep delay] else [])
  else [.post item_id]

/-- `trigger_search` (main.py:192-214): for each id in order, submit the
search command; on success record the id in the ledger (with the current
time `now`) and sleep `REQUEST_DELAY_SECONDS` if positive; on failure log and
continue.  Returns the updated ledger and the trace. -/
def trigger_search (delay : Int) (post : Int → Bool) (now : Int)
    (ledger : List (Int × Int)) : List Int → List (Int × Int) × List TraceEvent
  | [] => (ledger, [])
  | item_id :: rest =>
      if post item_id then
        let step := trigger_search delay post now
          (add_searched_id ledger item_id now) rest
        (step.1,
          ([TraceEvent.post item_id, TraceEvent.record item_id]
            ++ (if 0 < delay then [TraceEvent.sleep delay] else [])) ++ step.2)
      else
        let step := trigger_search delay post now ledger rest
        (step.1, TraceEvent.post item_id :: step.2)

-- --- Core logic: run_cycle (src/main.py lines 218-259) ---

/-- Python's prefix slice `l[:k]`: for `k ≥ 0` the first `k` elements, for
`k < 0` all but the last `|k|` elements. -/
def pySliceTo (l : List Int) (k : Int) : List Int :=
  if 0 ≤ k then l.take k.toNat else l.take (l.length - (-k).toNat)

/-- The value of `searched_ids` in `run_cycle` (main.py:242): the ledger read,
degraded to the empty set when the storage read fails (`readOk = false`). -/
def searched_ids_of (readOk : Bool) (ledger : List (Int × Int)) : List Int :=
  if readOk then get_searched_ids ledger else []

/-- The `target_list` comprehension of `run_cycle` (main.py:243):
`[id for id in all_candidates if id not in searched_ids]`. -/
def target_list_of (all_candidates searched_ids : List Int) : List Int :=
  all_candidates.filter (fun x => !(searched_ids.contains x))

/-- Step 5 of `run_cycle` (main.py:254-259): slice the batch and hand it to
`trigger_search`. -/
def run_cycle_batch (now limit delay : Int) (post : Int → Bool)
    (ledger1 : List (Int × Int)) (target_list : List Int) : CycleResult :=
  ⟨(trigger_search delay post now ledger1 (pySliceTo target_list limit)).1,
   pySliceTo target_list limit,
   (trigger_search delay post now ledger1 (pySliceTo target_list limit)).2⟩

/-- Steps 3-5 of `run_cycle` (main.py:241-259), after a non-empty fetch:
filter against the ledger; if nothing remains, wipe when the searched set is
non-empty (cycle complete) and end; otherwise dispatch the batch. -/
def run_cycle_filtered (now limit delay : Int) (post : Int → Bool)
    (ledger1 : List (Int × Int)) (all_candidates searched_ids : List Int) :
    CycleResult :=
  if (target_list_of all_candidates searched_ids).isEmpty then
    if 0 < searched_ids.length then ⟨wipe_table ledger1, [], []⟩
    else ⟨ledger1, [], []⟩
  else
    run_cycle_batch now limit delay post ledger1
      (target_list_of all_candidates searched_ids)

/-- Steps 2-5 of `run_cycle` (main.py:233-259), after the safety net: fetch
the candidates; if none, end (no wipe); otherwise filter and continue. -/
def run_cycle_steps (app : AppName) (net : Network)
    (setOrder : List Int → List Int) (now limit cutoff_limit delay : Int)
    (readOk : Bool) (post : Int → Bool) (ledger1 : List (Int × Int)) :
    CycleResult :=
  if (get_combined_content app net setOrder limit cutoff_limit).isEmpty then
    ⟨ledger1, [], []⟩
  else
    run_cycle_filtered now limit delay post ledger1
      (get_combined_content app net setOrder limit cutoff_limit)
      (searched_ids_of readOk ledger1)

/-- `run_cycle` (main.py:218-259): a disabled category returns immediately
with no state change; otherwise the safety net runs first and the remaining
steps operate on the (possibly wiped) ledger. -/
def run_cycle (app : AppName) (net : Network)
    (setOrder : List Int → List Int)
    (now maxAge limit cutoff_limit delay : Int) (enabled readOk : Bool)
    (post : Int → Bool) (ledger0 : List (Int × Int)) : CycleResult :=
  if !enabled then ⟨ledger0, [], []⟩
  else
    run_cycle_steps app net setOrder now limit cutoff_limit delay readOk post
      (check_safety_net now maxAge ledger0)

-- --- Configuration (src/main.py lines 9-32, 269-275) ---

/-- `os.getenv(key, default)`: the environment value when the key is set,
otherwise the default. -/
def getenv_or (env : String → Option String) (key default_value : String) :
    String :=
  (env key).getD default_value

/-- The numeric value of a decimal digit character, `none` otherwise. -/
def char_digit (c : Char) : Option Nat :=
  if c.isDigit then some (c.toNat - 48) else none

/-- Parse a non-empty all-digit character list as a natural number. -/
def py_parse_digits (cs : List Char) : Option Nat :=
  match cs with
  | [] => none
  | _ => (cs.mapM char_digit).map (List.foldl (fun n d => n * 10 + d) 0)

/-- Python's `int(s)` on a plain decimal string: an optional minus sign
followed by digits; `none` models the `ValueError` raised on anything
else. -/
def py_int (s : String) : Option Int :=
  match s.data with
  | '-' :: rest => (py_parse_digits rest).map (fun n => -(n : Int))
  | cs => (py_parse_digits cs).map (fun n => (n : Int))

/-- The `RUN_EVERY_MINUTES` configuration value (main.py:18):
`int(os.getenv("RUN_EVERY", "15"))`.  Note the environment KEY consulted is
`RUN_EVERY`. -/
def RUN_EVERY_MINUTES (env : String → Option String) : Option Int :=
  py_int (getenv_or env "RUN_EVERY" "15")

/-- The scheduler-interval setting as the specification describes it ("read
from the configuration key RUN_EVERY_MINUTES, defaulting to 15"), written
from the spec's words for comparison with `RUN_EVERY_MINUTES`. -/
def RUN_EVERY_MINUTES_as_specified (env : String → Option String) :
    Option Int :=
  py_int (getenv_or env "RUN_EVERY_MINUTES" "15")

-- --- Concrete scenarios used in counterexamples and witnesses ---

/-- A network where every remote request fails. -/
def netAllFail : Network :=
  ⟨.failure, .failure, .failure⟩

/-- Episode category: the missing sub-query returns ids 1 and 2, the other
endpoints fail. -/
def netMissing12 : Network :=
  ⟨.bareList [some 1, some 2], .failure, .failure⟩

/-- Episode category: the missing sub-query returns id 2 and the cutoff
sub-query returns id 1 (so id 2 is discovered first). -/
def netDiscover21 : Network :=
  ⟨.bareList [some 2], .bareList [some 1], .failure⟩

/-- Movie category: the movie-catalog request fails while the cutoff
sub-query succeeds with id 7. -/
def netRadarrMissingFails : Network :=
  ⟨.failure, .bareList [some 7], .failure⟩

/-- Episode category: the missing sub-query returns id 3 and the cutoff
sub-query returns id 7. -/
def netMissing3Cutoff7 : Network :=
  ⟨.bareList [some 3], .bareList [some 7], .failure⟩

/-- Episode category: the missing sub-query returns id 4, the rest fails. -/
def netMissing4 : Network :=
  ⟨.bareList [some 4], .failure, .failure⟩

/-- An environment that sets `RUN_EVERY_MINUTES=99` and nothing else. -/
def env_c5 : String → Option String :=
  fun key => if key = "RUN_EVERY_MINUTES" then some "99" else none

/-- Ordered insertion into an ascending list of ints. -/
def insert_asc (x : Int) : List Int → List Int
  | [] => [x]
  | y :: ys => if x ≤ y then x :: y :: ys else y :: insert_asc x ys

/-- Insertion sort, ascending. -/
def sort_asc (l : List Int) : List Int :=
  l.foldr insert_asc []

/-- One concrete admissible behavior of Python's `list(set(l))`: CPython
hashes a small nonnegative int to itself, so a set whose elements all fit in
the initial hash table without collision iterates in ascending value order
regardless of insertion order (for example `list(set([2, 1])) == [1, 2]`).
This function reproduces that order: sort the distinct elements
ascending. -/
def cpython_int_set_list (l : List Int) : List Int :=
  sort_asc l.dedup

-- --- Helper lemmas ---

/-- `List.dedup` is one admissible behavior of `list(set(...))`. -/
lemma valid_set_order_dedup : valid_set_order List.dedup := by
  intro l
  exact ⟨List.nodup_dedup l, fun x => List.mem_dedup⟩

/-- Any admissible `list(set(...))` maps the empty list to the empty list. -/
lemma valid_set_order_nil {f : List Int → List Int}
    (hf : valid_set_order f) : f [] = [] := by
  rcases hf [] with ⟨-, hmem⟩
  apply List.eq_nil_iff_forall_not_mem.mpr
  intro x hx
  exact (List.not_mem_nil x) ((hmem x).mp hx)

/-- The trace of `trigger_search` is the concatenation of the per-item event
lists, in input order. -/
lemma trigger_search_trace (delay : Int) (post : Int → Bool) (now : Int) :
    ∀ (ledger : List (Int × Int)) (ids : List Int),
      (trigger_search delay post now ledger ids).2
        = ids.flatMap (search_events delay post) := by
  intro ledger ids
  induction ids generalizing ledger with
  | nil => rfl
  | cons i rest ih =>
      by_cases hp : post i <;>
        simp [trigger_search, search_events, hp, ih]

/-- Each item of the input contributes exactly one submission event. -/
lemma trigger_search_post_count (delay : Int) (post : Int → Bool) (now : Int)
    (ledger : List (Int × Int)) (ids : List Int) :
    ((trigger_search delay post now ledger ids).2).countP isPostEvent
      = ids.length := by
  rw [trigger_search_trace]
  induction ids with
  | nil => rfl
  | cons i rest ih =>
      by_cases hp : post i <;> by_cases hd : 0 < delay <;>
        simp [search_events, hp, hd, List.countP_cons, isPostEvent, ih,
          Nat.add_comm]

/-- When the delay is positive there is one sleep event per successful
submission; otherwise there are none. -/
lemma trigger_search_sleep_count (delay : Int) (post : Int → Bool) (now : Int)
    (ledger : List (Int × Int)) (ids : List Int) :
    ((trigger_search delay post now ledger ids).2).countP isSleepEvent
      = if 0 < delay then ids.countP post else 0 := by
  rw [trigger_search_trace]
  induction ids with
  | nil => simp
  | cons i rest ih =>
      by_cases hp : post i <;> by_cases hd : 0 < delay <;>
        simp [search_events, hp, hd, List.countP_cons, isSleepEvent, ih]

/-- A Python prefix slice is a sublist of the sliced list. -/
lemma pySliceTo_sublist (l : List Int) (k : Int) :
    (pySliceTo l k).Sublist l := by
  unfold pySliceTo
  split <;> exact List.take_sublist _ _

/-- For a nonnegative slice bound, the slice has at most that many
elements. -/
lemma pySliceTo_length (l : List Int) {k : Int} (hk : 0 ≤ k) :
    ((pySliceTo l k).length : Int) ≤ k := by
  unfold pySliceTo
  rw [if_pos hk]
  have h1 : (l.take k.toNat).length ≤ k.toNat := by
    simp [List.length_take]
  calc ((l.take k.toNat).length : Int) ≤ (k.toNat : Int) := by exact_mod_cast h1
    _ = k := Int.toNat_of_nonneg hk

/-- Membership in `target_list_of`: exactly the candidates not yet
searched. -/
lemma mem_target_list {cs searched : List Int} {x : Int} :
    x ∈ target_list_of cs searched ↔ x ∈ cs ∧ x ∉ searched := by
  simp [target_list_of]

/-- The safety net either wipes the table or leaves it unchanged. -/
lemma check_safety_net_cases (now maxAge : Int) (ledger : List (Int × Int)) :
    check_safety_net now maxAge ledger = []
      ∨ check_safety_net now maxAge ledger = ledger := by
  unfold check_safety_net
  split
  · exact .inr rfl
  · split
    · exact .inl rfl
    · exact .inr rfl

/-- The safety net is idempotent: re-running it on its own output changes
nothing. -/
lemma check_safety_net_idem (now maxAge : Int) (ledger : List (Int × Int)) :
    check_safety_net now maxAge (check_safety_net now maxAge ledger)
      = check_safety_net now maxAge ledger := by
  rcases check_safety_net_cases now maxAge ledger with hc | hc
  · rw [hc]
    rfl
  · rw [hc]
    exact hc

/-- The raw candidate list depends on the cutoff limit only through its
sign: any two limits on the same side of zero fetch the same ids. -/
lemma raw_candidate_ids_flag (app : AppName) (net : Network) {c1 c2 : Int}
    (h : 0 < c1 ↔ 0 < c2) :
    raw_candidate_ids app net c1 = raw_candidate_ids app net c2 := by
  by_cases h1 : 0 < c1
  · have h2 : 0 < c2 := h.mp h1
    cases app <;> simp only [raw_candidate_ids, if_pos h1, if_pos h2]
  · have h2 : ¬ 0 < c2 := fun hc => h1 (h.mpr hc)
    cases app <;> simp only [raw_candidate_ids, if_neg h1, if_neg h2]

-- --- Claim C6 ---

/-- Claim C6 (confirmed): for every ledger whose oldest entry is older than
`MAX_CYCLE_DAYS` at the start of a cycle, the safety net wipes the ledger
before candidates are fetched, regardless of completion state; when the
oldest entry is not old enough, or the table is empty, the safety net leaves
the ledger unchanged.  The last conjunct states the "before candidates are
fetched" ordering: a cycle on `L0` behaves exactly like a cycle on the
safety-net-adjusted ledger. -/
theorem claim6_safety_net (now maxAge : Int) (L0 : List (Int × Int))
    (app : AppName) (net : Network) (so : List Int → List Int)
    (limit cl delay : Int) (readOk : Bool) (post : Int → Bool) :
    (∀ t, oldest_timestamp L0 = some t → maxAge < now - t →
      check_safety_net now maxAge L0 = [])
    ∧ (∀ t, oldest_timestamp L0 = some t → now - t ≤ maxAge →
      check_safety_net now maxAge L0 = L0)
    ∧ (oldest_timestamp L0 = none → check_safety_net now maxAge L0 = L0)
    ∧ run_cycle app net so now maxAge limit cl delay true readOk post L0
      = run_cycle app net so now maxAge limit cl delay true readOk post
          (check_safety_net now maxAge L0) := by
  refine ⟨?_, ?_, ?_, ?_⟩
  · intro t ht hage
    simp [check_safety_net, wipe_table, ht, hage]
  · intro t ht hage
    simp [check_safety_net, ht, not_lt.mpr hage]
  · intro ht
    simp [check_safety_net, ht]
  · simp [run_cycle, check_safety_net_idem]

/-- Witness for C6: a ledger whose oldest entry (timestamp 0) is 31 days old
with a 30-day maximum is wiped. -/
theorem claim6_witness : check_safety_net 31 30 [(1, 0)] = [] :=
  (claim6_safety_net 31 30 [(1, 0)] .sonarr netAllFail List.dedup 10 0 2 true
    (fun _ => true)).1 0 (by decide) (by decide)

-- --- Claim C7 ---

/-- Claim C7 (confirmed): in any cycle whose ledger read succeeds
(`readOk = true`), every id dispatched to the search trigger is absent from
the searched-id set as loaded at the start of the filter step (the ledger
after the safety net). -/
theorem claim7_no_duplicate_search (app : AppName) (net : Network)
    (so : List Int → List Int) (now maxAge limit cl delay : Int)
    (post : Int → Bool) (L0 : List (Int × Int)) (x : Int)
    (hx : x ∈ (run_cycle app net so now maxAge limit cl delay true true post
      L0).dispatched) :
    x ∉ get_searched_ids (check_safety_net now maxAge L0) := by
  by_cases hcs : (get_combined_content app net so limit cl).isEmpty
  · simp [run_cycle, run_cycle_steps, hcs] at hx
  · by_cases htl : (target_list_of (get_combined_content app net so limit cl)
        (searched_ids_of true (check_safety_net now maxAge L0))).isEmpty
    · by_cases hs : 0 < (searched_ids_of true
          (check_safety_net now maxAge L0)).length
      · simp [run_cycle, run_cycle_steps, run_cycle_filtered, hcs, htl, hs]
          at hx
      · simp [run_cycle, run_cycle_steps, run_cycle_filtered, hcs, htl, hs]
          at hx
    · simp [run_cycle, run_cycle_steps, run_cycle_filtered, run_cycle_batch,
        hcs, htl] at hx
      have hmem : x ∈ target_list_of (get_combined_content app net so limit cl)
          (searched_ids_of true (check_safety_net now maxAge L0)) :=
        (pySliceTo_sublist _ limit).mem hx
      have := (mem_target_list.mp hmem).2
      simpa [searched_ids_of] using this

/-- Witness for C7: with ledger {1} and candidates {1, 5}, the dispatched id
5 is not in the pre-cycle searched set. -/
theorem claim7_witness :
    (5 : Int) ∉ get_searched_ids (check_safety_net 0 30 [(1, 0)]) :=
  claim7_no_duplicate_search .sonarr
    ⟨.bareList [some 1, some 5], .failure, .failure⟩ List.dedup 0 30 10 0 0
    (fun _ => true) [(1, 0)] 5 (by decide)

-- --- Claim C8 ---

/-- Claim C8 (confirmed): `add_searched_id` is idempotent.  Inserting an id
already present is a no-op, and after inserting a fresh id twice (with
different timestamps) the ledger holds exactly one row for that id, carrying
the first-recorded timestamp. -/
theorem claim8_idempotent_insert (ledger : List (Int × Int))
    (item_id t1 t2 : Int) :
    (item_id ∈ ledger.map Prod.fst →
      add_searched_id ledger item_id t1 = ledger)
    ∧ (item_id ∉ ledger.map Prod.fst →
      add_searched_id (add_searched_id ledger item_id t1) item_id t2
        = ledger ++ [(item_id, t1)]
      ∧ (add_searched_id (add_searched_id ledger item_id t1) item_id t2).filter
          (fun e => e.1 == item_id) = [(item_id, t1)]) := by
  constructor
  · intro h
    simp [add_searched_id, h]
  · intro h
    have h1 : add_searched_id ledger item_id t1 = ledger ++ [(item_id, t1)] := by
      simp [add_searched_id, h]
    have h3 : add_searched_id (ledger ++ [(item_id, t1)]) item_id t2
        = ledger ++ [(item_id, t1)] := by
      simp [add_searched_id]
    refine ⟨by rw [h1, h3], ?_⟩
    rw [h1, h3, List.filter_append]
    have hl : ledger.filter (fun e => e.1 == item_id) = [] := by
      rw [List.filter_eq_nil_iff]
      intro e he hbe
      apply h
      have heq : e.1 = item_id := by simpa using hbe
      exact heq ▸ List.mem_map_of_mem Prod.fst he
    rw [hl]
    simp

/-- Witness for C8: inserting id 6 twice into the ledger {5} gives one row
(6, 1) with the first timestamp. -/
theorem claim8_witness :
    add_searched_id (add_searched_id [(5, 100)] 6 1) 6 2
      = [(5, 100)] ++ [(6, 1)] :=
  ((claim8_idempotent_insert [(5, 100)] 6 1 2).2 (by decide)).1

-- --- Claim C1 ---

/-- Claim C1 counterexample: with both sub-queries failing, the fetched
candidate set C is empty, so C ⊆ S holds for the non-empty searched set
S = {1}; the claim then demands a wipe, but `run_cycle` returns at the
empty-fetch check (main.py:237) with the ledger untouched. -/
theorem claim1_counterexample :
    get_combined_content .sonarr netAllFail List.dedup 10 0 = []
    ∧ (run_cycle .sonarr netAllFail List.dedup 1 30 10 0 2 true true
        (fun _ => true) [(1, 0)]).ledger = [(1, 0)]
    ∧ [((1 : Int), (0 : Int))] ≠ ([] : List (Int × Int)) := by
  decide

/-- Claim C1 as amended: when the fetched candidate set is NON-EMPTY, is
contained in the searched set loaded after the safety net, and that searched
set is non-empty (which follows), the cycle wipes the ledger to empty and
issues zero search triggers; when the fetched candidate set is empty the
cycle ends with zero triggers and the ledger exactly as the safety net left
it — no wipe. -/
theorem claim1_amended (app : AppName) (net : Network)
    (so : List Int → List Int) (now maxAge limit cl delay : Int)
    (post : Int → Bool) (L0 : List (Int × Int)) :
    (get_combined_content app net so limit cl ≠ [] →
      (∀ x ∈ get_combined_content app net so limit cl,
        x ∈ get_searched_ids (check_safety_net now maxAge L0)) →
      run_cycle app net so now maxAge limit cl delay true true post L0
        = ⟨[], [], []⟩)
    ∧ (get_combined_content app net so limit cl = [] →
      run_cycle app net so now maxAge limit cl delay true true post L0
        = ⟨check_safety_net now maxAge L0, [], []⟩) := by
  constructor
  · intro hne hsub
    have htarget : target_list_of (get_combined_content app net so limit cl)
        (searched_ids_of true (check_safety_net now maxAge L0)) = [] := by
      rw [target_list_of, List.filter_eq_nil_iff]
      intro x hx
      have hxs : x ∈ searched_ids_of true (check_safety_net now maxAge L0) := by
        simpa [searched_ids_of] using hsub x hx
      simp [hxs]
    obtain ⟨x0, hx0⟩ := List.exists_mem_of_ne_nil _ hne
    have hx0s : x0 ∈ searched_ids_of true (check_safety_net now maxAge L0) := by
      simpa [searched_ids_of] using hsub x0 hx0
    have hlen : 0 < (searched_ids_of true
        (check_safety_net now maxAge L0)).length :=
      List.length_pos.mpr (List.ne_nil_of_mem hx0s)
    simp [run_cycle, run_cycle_steps, run_cycle_filtered, wipe_table,
      List.isEmpty_iff, hne, htarget, hlen]
  · intro hcs
    simp [run_cycle, run_cycle_steps, List.isEmpty_iff, hcs]

/-- Witness for the amended C1: candidates {1, 2} all already searched, so
the cycle wipes the ledger and dispatches nothing. -/
theorem claim1_witness :
    run_cycle .sonarr netMissing12 List.dedup 0 30 10 0 2 true true
      (fun _ => true) [(1, 5), (2, 6)] = ⟨[], [], []⟩ :=
  (claim1_amended .sonarr netMissing12 List.dedup 0 30 10 0 2
    (fun _ => true) [(1, 5), (2, 6)]).1 (by decide) (by decide)

-- --- Claim C2 ---

/-- Claim C2 counterexample: id 2 is discovered before id 1 (missing
sub-query first, then cutoff), so first-discovery order is [2, 1]; with the
CPython hash-set iteration order the deduplicated candidate list — and hence
the target list — is [1, 2], not the discovery order.  A different
admissible set order (`List.dedup`) yields target [2, 1] instead, and the
two orders select different step-5 batches for limit 1, so the batch is not
determined by the discovery order. -/
theorem claim2_counterexample :
    raw_candidate_ids .sonarr netDiscover21 1 = [2, 1]
    ∧ get_combined_content .sonarr netDiscover21 cpython_int_set_list 10 1
        = [1, 2]
    ∧ target_list_of
        (get_combined_content .sonarr netDiscover21 cpython_int_set_list 10 1)
        [] = [1, 2]
    ∧ target_list_of
        (get_combined_content .sonarr netDiscover21 List.dedup 10 1) []
        = [2, 1]
    ∧ pySliceTo [1, 2] 1 ≠ pySliceTo [2, 1] 1 := by
  decide

/-- Claim C2 as amended: the filter step computes
`target = candidates − searched` as an order-preserving sublist of the
deduplicated candidate list returned by the fetch step, so the batch of step
5 is deterministic given THAT list; the candidate list has exactly the ids
discovered by the sub-queries, without duplicates, but in the hash set's
iteration order — first-discovery order is not preserved through
deduplication. -/
theorem claim2_amended (so : List Int → List Int) (hso : valid_set_order so)
    (app : AppName) (net : Network) (limit cl : Int) (searched : List Int) :
    (target_list_of (get_combined_content app net so limit cl)
        searched).Sublist (get_combined_content app net so limit cl)
    ∧ (∀ x, x ∈ target_list_of (get_combined_content app net so limit cl)
          searched
        ↔ x ∈ get_combined_content app net so limit cl ∧ x ∉ searched)
    ∧ (get_combined_content app net so limit cl).Nodup
    ∧ (∀ x, x ∈ get_combined_content app net so limit cl
        ↔ x ∈ raw_candidate_ids app net cl) := by
  exact ⟨List.filter_sublist _, fun x => mem_target_list,
    (hso _).1, fun x => (hso _).2 x⟩

/-- Witness for the amended C2: a concrete instance with `List.dedup` as the
set order and searched set {1}. -/
theorem claim2_witness :
    (target_list_of (get_combined_content .sonarr netDiscover21 List.dedup
      10 1) [1]).Sublist
      (get_combined_content .sonarr netDiscover21 List.dedup 10 1) :=
  (claim2_amended List.dedup valid_set_order_dedup .sonarr netDiscover21
    10 1 [1]).1

-- --- Claim C3 ---

/-- Claim C3 counterexample: for the movie category, the movie-catalog
request (the missing sub-query) fails while the cutoff sub-query succeeds
with id 7 and cutoff fetching is enabled; because both sub-queries sit in the
same `try` block (main.py:167-187), the failure skips the cutoff fetch and
the candidate set is empty — id 7 does not appear, contradicting the claim
that the other sub-query's IDs always survive. -/
theorem claim3_counterexample :
    netRadarrMissingFails.movies = .failure
    ∧ fetch_ids_from_endpoint netRadarrMissingFails.cutoff = [7]
    ∧ get_combined_content .radarr netRadarrMissingFails List.dedup 10 1 = []
    ∧ (7 : Int) ∉ get_combined_content .radarr netRadarrMissingFails
        List.dedup 10 1 := by
  decide

/-- Claim C3 as amended: a transport or parse failure in one sub-query
reduces that sub-query's contribution to an empty list without aborting the
overall fetch, EXCEPT in the movie category, where a failure of the missing
sub-query also skips the cutoff sub-query and yields an empty candidate set.
Concretely: for the episode category each sub-query's ids always survive the
other's failure; for the movie category the missing ids survive a cutoff
failure and the cutoff ids survive only when the missing sub-query
succeeded; and a failed movie missing sub-query empties the whole result. -/
theorem claim3_amended (so : List Int → List Int) (hso : valid_set_order so)
    (net : Network) (limit cl : Int) (x : Int) :
    (x ∈ fetch_ids_from_endpoint net.missing →
      x ∈ get_combined_content .sonarr net so limit cl)
    ∧ (0 < cl → x ∈ fetch_ids_from_endpoint net.cutoff →
      x ∈ get_combined_content .sonarr net so limit cl)
    ∧ (∀ mids, radarr_missing_ids net.movies = some mids → x ∈ mids →
      x ∈ get_combined_content .radarr net so limit cl)
    ∧ (0 < cl → ∀ mids, radarr_missing_ids net.movies = some mids →
      x ∈ fetch_ids_from_endpoint net.cutoff →
      x ∈ get_combined_content .radarr net so limit cl)
    ∧ (radarr_missing_ids net.movies = none →
      get_combined_content .radarr net so limit cl = []) := by
  have hmem : ∀ (a : AppName) (y : Int), y ∈ raw_candidate_ids a net cl →
      y ∈ get_combined_content a net so limit cl := by
    intro a y hy
    exact ((hso _).2 y).mpr hy
  refine ⟨?_, ?_, ?_, ?_, ?_⟩
  · intro hx
    exact hmem _ _ (by simp [raw_candidate_ids, hx])
  · intro hcl hx
    exact hmem _ _ (by simp [raw_candidate_ids, hcl, hx])
  · intro mids hm hx
    exact hmem _ _ (by simp [raw_candidate_ids, hm, hx])
  · intro hcl mids hm hx
    exact hmem _ _ (by simp [raw_candidate_ids, hm, hcl, hx])
  · intro hm
    have hraw : raw_candidate_ids .radarr net cl = [] := by
      simp [raw_candidate_ids, hm]
    unfold get_combined_content
    rw [hraw]
    exact valid_set_order_nil hso

/-- Witness for the amended C3: the episode category keeps the missing
sub-query's id 4 when the cutoff sub-query fails. -/
theorem claim3_witness :
    (4 : Int) ∈ get_combined_content .sonarr netMissing4 List.dedup 10 0 :=
  (claim3_amended List.dedup valid_set_order_dedup netMissing4 10 0 4).1
    (by decide)

-- --- Claim C4 ---

/-- Claim C4 counterexample: with the default delay 2 both submissions fail,
and the trace shows the two submissions back to back with no sleep at all —
the pacing delay is NOT observed after a failed submission (the `time.sleep`
sits inside the `try` after the success path, main.py:210-211). -/
theorem claim4_counterexample :
    (trigger_search 2 (fun _ => false) 0 [] [1, 2]).2
      = [.post 1, .post 2]
    ∧ ((trigger_search 2 (fun _ => false) 0 [] [1, 2]).2).countP isSleepEvent
      = 0
    ∧ (2 : Int) ≠ 0 := by
  decide

/-- Claim C4 as amended: the pacing delay is observed after every SUCCESSFUL
submission (before the next ID is attempted) when the configured delay is
positive; a failed submission proceeds to the next ID without any pause; and
a delay of zero (or negative) disables the pause entirely.  The trace is the
per-item event lists in input order, where `search_events` pauses exactly
after a successful submission's ledger insert, and the number of sleeps is
the number of successes when the delay is positive and zero otherwise. -/
theorem claim4_amended (delay : Int) (post : Int → Bool) (now : Int)
    (ledger : List (Int × Int)) (ids : List Int) :
    (trigger_search delay post now ledger ids).2
      = ids.flatMap (search_events delay post)
    ∧ ((trigger_search delay post now ledger ids).2).countP isSleepEvent
      = (if 0 < delay then ids.countP post else 0) :=
  ⟨trigger_search_trace delay post now ledger ids,
    trigger_search_sleep_count delay post now ledger ids⟩

-- --- Claim C5 ---

/-- Claim C5 counterexample: in an environment that sets only
`RUN_EVERY_MINUTES=99`, the program's scheduler interval is the default 15 —
the code reads the key `RUN_EVERY` (main.py:18), not `RUN_EVERY_MINUTES` as
the spec's configuration table states. -/
theorem claim5_counterexample :
    env_c5 "RUN_EVERY_MINUTES" = some "99"
    ∧ env_c5 "RUN_EVERY" = none
    ∧ RUN_EVERY_MINUTES env_c5 = some 15
    ∧ RUN_EVERY_MINUTES_as_specified env_c5 = some 99 := by
  refine ⟨by decide, by decide, by decide, by decide⟩

/-- Claim C5 as amended: the scheduler interval is read from the
configuration key `RUN_EVERY` (despite the Python variable being named
`RUN_EVERY_MINUTES`), defaulting to 15 minutes when that key is unset; the
value depends on the environment only through the `RUN_EVERY` key, so the
key `RUN_EVERY_MINUTES` is never consulted. -/
theorem claim5_amended (env : String → Option String) :
    (env "RUN_EVERY" = none → RUN_EVERY_MINUTES env = some 15)
    ∧ (∀ env2 : String → Option String,
        env "RUN_EVERY" = env2 "RUN_EVERY" →
        RUN_EVERY_MINUTES env = RUN_EVERY_MINUTES env2) := by
  constructor
  · intro h
    rw [RUN_EVERY_MINUTES, getenv_or, h]
    decide
  · intro env2 h
    rw [RUN_EVERY_MINUTES, RUN_EVERY_MINUTES, getenv_or, getenv_or, h]

/-- Witness for the amended C5: with an empty environment the interval is
the default 15. -/
theorem claim5_witness : RUN_EVERY_MINUTES (fun _ => none) = some 15 :=
  (claim5_amended (fun _ => none)).1 rfl

-- --- Claim C9 ---

/-- Any cycle either dispatches nothing (with an empty trace) or dispatches
exactly the `target_list[:limit]` slice of some target list, tracing its
`trigger_search` run. -/
lemma run_cycle_shape (app : AppName) (net : Network)
    (so : List Int → List Int) (now maxAge limit cl delay : Int)
    (enabled readOk : Bool) (post : Int → Bool) (L0 : List (Int × Int)) :
    ((run_cycle app net so now maxAge limit cl delay enabled readOk post
        L0).dispatched = []
      ∧ (run_cycle app net so now maxAge limit cl delay enabled readOk post
        L0).trace = [])
    ∨ ∃ target ledger1,
        (run_cycle app net so now maxAge limit cl delay enabled readOk post
          L0).dispatched = pySliceTo target limit
        ∧ (run_cycle app net so now maxAge limit cl delay enabled readOk post
            L0).trace
          = (trigger_search delay post now ledger1
              (pySliceTo target limit)).2 := by
  unfold run_cycle run_cycle_steps run_cycle_filtered run_cycle_batch
  split
  · exact .inl ⟨rfl, rfl⟩
  · split
    · exact .inl ⟨rfl, rfl⟩
    · split
      · split
        · exact .inl ⟨rfl, rfl⟩
        · exact .inl ⟨rfl, rfl⟩
      · exact .inr ⟨_, _, rfl, rfl⟩

/-- Claim C9 counterexample: with the configured limit -1 and two pending
candidates, Python's slice `target_list[:-1]` drops only the last item, so
one search trigger is issued — and 1 exceeds the configured limit -1. -/
theorem claim9_counterexample :
    (run_cycle .sonarr netMissing12 List.dedup 0 30 (-1) 0 0 true true
        (fun _ => true) []).dispatched = [1]
    ∧ ((run_cycle .sonarr netMissing12 List.dedup 0 30 (-1) 0 0 true true
        (fun _ => true) []).trace).countP isPostEvent = 1
    ∧ ¬ ((1 : Int) ≤ -1) := by
  decide

/-- Claim C9 as amended: for every cycle whose configured batch limit is
NONNEGATIVE, the number of search triggers issued (submission events in the
trace, equivalently dispatched ids) never exceeds the limit; a negative
limit is interpreted by the Python slice as dropping that many items from
the end of the pending list rather than bounding the batch. -/
theorem claim9_amended (app : AppName) (net : Network)
    (so : List Int → List Int) (now maxAge : Int) {limit : Int}
    (cl delay : Int) (enabled readOk : Bool) (post : Int → Bool)
    (L0 : List (Int × Int)) (hlim : 0 ≤ limit) :
    (((run_cycle app net so now maxAge limit cl delay enabled readOk post
        L0).dispatched.length : Int) ≤ limit)
    ∧ ((((run_cycle app net so now maxAge limit cl delay enabled readOk post
        L0).trace).countP isPostEvent : Int) ≤ limit) := by
  rcases run_cycle_shape app net so now maxAge limit cl delay enabled readOk
      post L0 with ⟨h1, h2⟩ | ⟨target, ledger1, h1, h2⟩
  · rw [h1, h2]
    exact ⟨by simpa using hlim, by simpa using hlim⟩
  · constructor
    · rw [h1]
      exact pySliceTo_length _ hlim
    · rw [h2, trigger_search_post_count]
      exact pySliceTo_length _ hlim

/-- Witness for the amended C9: a concrete cycle with limit 10 issues at
most 10 triggers. -/
theorem claim9_witness :
    (((run_cycle .sonarr netMissing12 List.dedup 0 30 10 0 0 true true
        (fun _ => true) []).dispatched.length : Int) ≤ 10)
    ∧ ((((run_cycle .sonarr netMissing12 List.dedup 0 30 10 0 0 true true
        (fun _ => true) []).trace).countP isPostEvent : Int) ≤ 10) :=
  claim9_amended .sonarr netMissing12 List.dedup 0 30 0 0 true true
    (fun _ => true) [] (by decide)

-- --- Claim C10 ---

/-- Claim C10 counterexample: cutoff limits 5 and -5 are both nonzero, yet
the fetched candidate sets (and the dispatched batches) differ — the code
tests `cutoff_limit > 0`, so a negative nonzero value behaves like zero, and
the claimed zero/nonzero flag semantics fails. -/
theorem claim10_counterexample :
    (5 : Int) ≠ 0 ∧ (-5 : Int) ≠ 0
    ∧ get_combined_content .sonarr netMissing3Cutoff7 List.dedup 10 5
        = [3, 7]
    ∧ get_combined_content .sonarr netMissing3Cutoff7 List.dedup 10 (-5)
        = [3]
    ∧ (run_cycle .sonarr netMissing3Cutoff7 List.dedup 0 30 10 5 0 true true
        (fun _ => true) []).dispatched = [3, 7]
    ∧ (run_cycle .sonarr netMissing3Cutoff7 List.dedup 0 30 10 (-5) 0 true
        true (fun _ => true) []).dispatched = [3] := by
  decide

/-- Claim C10 as amended: the cutoff limit acts only as a
positive/non-positive flag.  Two runs identical except for the cutoff limit
behave identically — same candidate set, same ledger, same dispatches, same
trace — whenever both limits are positive or both are non-positive; the
magnitude never bounds or otherwise affects how many cutoff items are
fetched or dispatched. -/
theorem claim10_amended (app : AppName) (net : Network)
    (so : List Int → List Int) (now maxAge limit delay : Int)
    (enabled readOk : Bool) (post : Int → Bool) (L0 : List (Int × Int))
    {cl1 cl2 : Int} (h : 0 < cl1 ↔ 0 < cl2) :
    run_cycle app net so now maxAge limit cl1 delay enabled readOk post L0
      = run_cycle app net so now maxAge limit cl2 delay enabled readOk post
          L0 := by
  have hcc : get_combined_content app net so limit cl1
      = get_combined_content app net so limit cl2 := by
    unfold get_combined_content
    rw [raw_candidate_ids_flag app net h]
  unfold run_cycle run_cycle_steps
  rw [hcc]

/-- Witness for the amended C10: cutoff limits 1 and 2 (both positive) give
identical cycles. -/
theorem claim10_witness :
    run_cycle .sonarr netMissing3Cutoff7 List.dedup 0 30 10 1 0 true true
        (fun _ => true) []
      = run_cycle .sonarr netMissing3Cutoff7 List.dedup 0 30 10 2 0 true
          true (fun _ => true) [] :=
  claim10_amended .sonarr netMissing3Cutoff7 List.dedup 0 30 10 0 true true
    (fun _ => true) [] (by decide)
